import Mathlib

/-!
Verification of the fmatrix repository's core subsystems: the two-tier
Last.fm response cache (`src/lastfm_client.py`, `src/database.py`), the
hourly cache-cleanup loop (`src/bot.py`), and the reaction-driven
pagination engine (`src/commands.py`).  Each definition is a shallow
embedding of the Python function named in its doc comment.
-/

namespace FMatrix

/-! ### Cache key derivation (`LastfmClient._cache_key`, src/lastfm_client.py 47-53) -/

/-- One `(key, value)` parameter pair, an element of `params.items()` in
`LastfmClient._request`.  Python dict keys are distinct within a mapping. -/
abbrev Param := String × String

/-- The order in which Python's `sorted` arranges `(key, value)` string
pairs: lexicographic comparison, first component first. -/
def paramLe (a b : Param) : Prop :=
  a.1 < b.1 ∨ (a.1 = b.1 ∧ a.2 ≤ b.2)

instance : DecidableRel paramLe := fun a b => by
  unfold paramLe; infer_instance

instance : IsTotal Param paramLe := by
  constructor
  intro a b
  rcases lt_trichotomy a.1 b.1 with h | h | h
  · exact Or.inl (Or.inl h)
  · rcases le_total a.2 b.2 with h2 | h2
    · exact Or.inl (Or.inr ⟨h, h2⟩)
    · exact Or.inr (Or.inr ⟨h.symm, h2⟩)
  · exact Or.inr (Or.inl h)

instance : IsTrans Param paramLe := by
  constructor
  intro a b c hab hbc
  rcases hab with hab | ⟨hab1, hab2⟩
  · rcases hbc with hbc | ⟨hbc1, hbc2⟩
    · exact Or.inl (hab.trans hbc)
    · exact Or.inl (hbc1 ▸ hab)
  · rcases hbc with hbc | ⟨hbc1, hbc2⟩
    · exact Or.inl (hab1 ▸ hbc)
    · exact Or.inr ⟨hab1.trans hbc1, hab2.trans hbc2⟩

instance : IsAntisymm Param paramLe := by
  constructor
  intro a b hab hba
  rcases hab with hab | ⟨hab1, hab2⟩
  · rcases hba with hba | ⟨hba1, hba2⟩
    · exact absurd hba (lt_asymm hab)
    · exact absurd (hba1 ▸ hab) (lt_irrefl _)
  · rcases hba with hba | ⟨hba1, hba2⟩
    · exact absurd (hab1 ▸ hba) (lt_irrefl _)
    · exact Prod.ext hab1 (le_antisymm hab2 hba2)

/-- The filter applied inside `_cache_key`'s loop: parameters whose key is
`api_key` or `format` are skipped (`if key in {'api_key', 'format'}: continue`). -/
def cacheKeyKeep (p : Param) : Bool :=
  !(p.1 == "api_key" || p.1 == "format")

/-- Embeds `LastfmClient._cache_key` (src/lastfm_client.py 47-53): iterate
`sorted(params.items())`, skip credential/format keys, render each pair as
`key=value`, and join the parts with `|`. -/
def cacheKey (params : List Param) : String :=
  String.intercalate "|"
    (((List.insertionSort paramLe params).filter cacheKeyKeep).map
      (fun p => p.1 ++ "=" ++ p.2))

/-- C5: two parameter mappings with the same remaining key-value pairs after
dropping credential (`api_key`) and response-format (`format`) fields — in
particular, mappings differing only in those fields, or only in insertion
order — derive the identical cache key. -/
theorem cacheKey_eq_of_same_semantic_params (ps qs : List Param)
    (h : (ps.filter cacheKeyKeep).Perm (qs.filter cacheKeyKeep)) :
    cacheKey ps = cacheKey qs := by
  unfold cacheKey
  have hperm : ((List.insertionSort paramLe ps).filter cacheKeyKeep).Perm
      ((List.insertionSort paramLe qs).filter cacheKeyKeep) :=
    (((List.perm_insertionSort paramLe ps).filter cacheKeyKeep).trans h).trans
      ((List.perm_insertionSort paramLe qs).filter cacheKeyKeep).symm
  have heq : (List.insertionSort paramLe ps).filter cacheKeyKeep =
      (List.insertionSort paramLe qs).filter cacheKeyKeep :=
    List.eq_of_perm_of_sorted hperm
      ((List.sorted_insertionSort paramLe ps).filter cacheKeyKeep)
      ((List.sorted_insertionSort paramLe qs).filter cacheKeyKeep)
  rw [heq]

/-- Witness for C5 at concrete inputs: two mappings for the same logical
operation differing only in credential value, format presence, and insertion
order share one cache key. -/
theorem cacheKey_eq_of_same_semantic_params_witness :
    (([("user", "alice"), ("api_key", "k1"),
       ("method", "user.gettopartists")] : List Param).filter cacheKeyKeep).Perm
      (([("method", "user.gettopartists"), ("format", "json"),
         ("user", "alice"), ("api_key", "k2")] : List Param).filter cacheKeyKeep) ∧
    cacheKey [("user", "alice"), ("api_key", "k1"),
      ("method", "user.gettopartists")] =
      cacheKey [("method", "user.gettopartists"), ("format", "json"),
        ("user", "alice"), ("api_key", "k2")] :=
  ⟨by decide, cacheKey_eq_of_same_semantic_params _ _ (by decide)⟩

/-! ### Two-tier response cache
(`LastfmClient._request`, src/lastfm_client.py 72-126;
`Database.get_lastfm_cache` / `set_lastfm_cache`, src/database.py 246-290)

Time is a single `Nat` clock: `time.monotonic()` (memory tier) and
`datetime.now(timezone.utc)` (persistent tier) both advance one second per
second, so one clock read at each step models both.  Payloads are opaque
strings; `json.dumps`/`json.loads` round-trip a payload unchanged, so the
serialized and in-memory forms are identified. -/

/-- One memory-tier entry: `self._cache[cache_key] = (time.monotonic(), data)`. -/
structure MemEntry where
  cachedAt : Nat
  data : String
  deriving Repr, DecidableEq

/-- One persistent-tier row of the `lastfm_cache` table:
`(cache_key, response_json, expires_at)`. -/
structure PersistEntry where
  responseJson : String
  expiresAt : Nat
  deriving Repr, DecidableEq

/-- Both cache tiers: `LastfmClient._cache` and the `lastfm_cache` table.
Association lists keyed by cache key, keys distinct. -/
structure CacheState where
  mem : List (String × MemEntry)
  persist : List (String × PersistEntry)
  deriving Repr, DecidableEq

/-- Key lookup in an association list (Python `dict.get` / SQL point `SELECT`). -/
def alistGet {α : Type} (l : List (String × α)) (k : String) : Option α :=
  (l.find? (fun p => p.1 == k)).map (fun p => p.2)

/-- Key removal (Python `dict.pop` / SQL point `DELETE`). -/
def alistErase {α : Type} (l : List (String × α)) (k : String) : List (String × α) :=
  l.filter (fun p => p.1 != k)

/-- Key insert-or-replace (Python `dict.__setitem__` / `INSERT OR REPLACE`). -/
def alistPut {α : Type} (l : List (String × α)) (k : String) (v : α) :
    List (String × α) :=
  alistErase l k ++ [(k, v)]

/-- Embeds `Database.get_lastfm_cache` (src/database.py 246-277) at wall-clock time
`now`: select the row; absent rows yield `None`; a row with
`now >= expires_at` is deleted and yields `None`; otherwise the stored
`response_json` is returned.  (The malformed-timestamp branch at lines
261-267 is unreachable for rows written by `set_lastfm_cache`, the only
writer, and is not modelled.) -/
def getLastfmCache (st : CacheState) (key : String) (now : Nat) :
    Option String × CacheState :=
  match alistGet st.persist key with
  | none => (none, st)
  | some e =>
    if e.expiresAt ≤ now then
      (none, { st with persist := alistErase st.persist key })
    else
      (some e.responseJson, st)

/-- Embeds `Database.set_lastfm_cache` (src/database.py 279-290): upsert the row
with `expires_at = now + ttl_seconds`. -/
def setLastfmCache (st : CacheState) (key json : String) (ttl now : Nat) :
    CacheState :=
  { st with persist := alistPut st.persist key ⟨json, now + ttl⟩ }

/-- Which tier served a cached read, or a miss that falls through to the
network call. -/
inductive ReadSource
  | memory (data : String)
  | persistTier (data : String)
  | miss
  deriving Repr, DecidableEq

/-- The persistent-tier half of `_request`'s cached read
(src/lastfm_client.py 87-93): consult `get_lastfm_cache`; a non-empty
cached string warms the memory tier with
`self._cache[cache_key] = (time.monotonic(), cached_data)` — timestamp
`now`, not the original fetch time — and is returned. -/
def requestPersistRead (st : CacheState) (key : String) (now : Nat) :
    ReadSource × CacheState :=
  match getLastfmCache st key now with
  | (some json, st2) =>
    if json.length ≠ 0 then
      (ReadSource.persistTier json, { st2 with mem := alistPut st2.mem key ⟨now, json⟩ })
    else
      (ReadSource.miss, st2)
  | (none, st2) => (ReadSource.miss, st2)

/-- The cached-read portion of `LastfmClient._request`
(src/lastfm_client.py 79-96), entered when `ttl > 0`: a memory entry is
fresh while `now - cached_at < ttl` and returned; otherwise it is popped
and the persistent tier is consulted. -/
def requestCachedRead (st : CacheState) (key : String) (ttl now : Nat) :
    ReadSource × CacheState :=
  match alistGet st.mem key with
  | some e =>
    if now - e.cachedAt < ttl then (ReadSource.memory e.data, st)
    else requestPersistRead { st with mem := alistErase st.mem key } key now
  | none => requestPersistRead st key now

/-- Outcome of the network call inside `_request` (src/lastfm_client.py 99-126). -/
inductive NetOutcome
  | ok (body : String)
  | httpError (status : Nat)
  | transportError
  deriving Repr, DecidableEq

/-- The network portion of `_request` (src/lastfm_client.py 97-126): a 200
response returns the body and, when `ttl > 0`, writes it to both tiers
(`set_lastfm_cache` gives the row `expires_at = now + ttl`); a non-200
status or a transport exception returns `None` and writes nothing. -/
def requestNetwork (st : CacheState) (key : String) (ttl now : Nat)
    (net : NetOutcome) : Option String × CacheState :=
  match net with
  | NetOutcome.ok body =>
    if 0 < ttl then
      (some body,
        setLastfmCache { st with mem := alistPut st.mem key ⟨now, body⟩ }
          key body ttl now)
    else (some body, st)
  | NetOutcome.httpError _ => (none, st)
  | NetOutcome.transportError => (none, st)

/-- Embeds `LastfmClient._request` (src/lastfm_client.py 72-126) for a fixed derived
key, TTL, clock reading, and network outcome: when `ttl > 0` the two cache
tiers are consulted first and either tier's fresh hit is returned with no
network call; otherwise the network call runs. -/
def requestStep (st : CacheState) (key : String) (ttl now : Nat)
    (net : NetOutcome) : Option String × CacheState :=
  if 0 < ttl then
    match requestCachedRead st key ttl now with
    | (ReadSource.memory d, st1) => (some d, st1)
    | (ReadSource.persistTier d, st1) => (some d, st1)
    | (ReadSource.miss, st1) => requestNetwork st1 key ttl now net
  else requestNetwork st key ttl now net

/-- A process restart: the in-process memory tier is lost, the persistent
tier (the SQLite `lastfm_cache` table) survives. -/
def processRestart (st : CacheState) : CacheState :=
  { st with mem := [] }

theorem alistGet_erase_self {α : Type} (l : List (String × α)) (k : String) :
    alistGet (alistErase l k) k = none := by
  induction l with
  | nil => rfl
  | cons p rest ih =>
    by_cases h : p.1 = k <;> simp [alistErase, alistGet, h]

theorem getLastfmCache_expired (st : CacheState) (key : String) (now : Nat)
    (e : PersistEntry) (hp : alistGet st.persist key = some e)
    (hexp : e.expiresAt ≤ now) :
    getLastfmCache st key now =
      (none, { st with persist := alistErase st.persist key }) := by
  unfold getLastfmCache
  rw [hp]
  simp [hexp]

theorem getLastfmCache_fresh (st : CacheState) (key : String) (now : Nat)
    (e : PersistEntry) (hp : alistGet st.persist key = some e)
    (hfresh : now < e.expiresAt) :
    getLastfmCache st key now = (some e.responseJson, st) := by
  unfold getLastfmCache
  rw [hp]
  simp [Nat.not_le.mpr hfresh]

theorem requestPersistRead_expired (st : CacheState) (key : String)
    (now : Nat) (e : PersistEntry)
    (hp : alistGet st.persist key = some e) (hexp : e.expiresAt ≤ now) :
    requestPersistRead st key now =
      (ReadSource.miss, { st with persist := alistErase st.persist key }) := by
  unfold requestPersistRead
  rw [getLastfmCache_expired st key now e hp hexp]

theorem requestPersistRead_fresh (st : CacheState) (key : String)
    (now : Nat) (e : PersistEntry)
    (hp : alistGet st.persist key = some e) (hfresh : now < e.expiresAt)
    (hne : e.responseJson.length ≠ 0) :
    requestPersistRead st key now =
      (ReadSource.persistTier e.responseJson,
        { st with mem := alistPut st.mem key ⟨now, e.responseJson⟩ }) := by
  unfold requestPersistRead
  rw [getLastfmCache_fresh st key now e hp hfresh]
  simp [hne]

theorem requestCachedRead_all_expired (st : CacheState) (key : String)
    (ttl now : Nat) (e : PersistEntry)
    (hmem : ∀ m : MemEntry, alistGet st.mem key = some m → ttl ≤ now - m.cachedAt)
    (hp : alistGet st.persist key = some e) (hexp : e.expiresAt ≤ now) :
    (requestCachedRead st key ttl now).1 = ReadSource.miss ∧
    alistGet (requestCachedRead st key ttl now).2.persist key = none := by
  unfold requestCachedRead
  cases hm : alistGet st.mem key with
  | none =>
    rw [requestPersistRead_expired st key now e hp hexp]
    exact ⟨rfl, alistGet_erase_self st.persist key⟩
  | some m =>
    have hnf : ¬ (now - m.cachedAt < ttl) := Nat.not_lt.mpr (hmem m hm)
    simp only [if_neg hnf,
      requestPersistRead_expired { st with mem := alistErase st.mem key } key now e hp hexp]
    exact ⟨trivial, alistGet_erase_self st.persist key⟩

theorem requestStep_memory_fresh (st : CacheState) (key : String)
    (ttl now : Nat) (m : MemEntry) (net : NetOutcome)
    (hm : alistGet st.mem key = some m) (hfresh : now - m.cachedAt < ttl)
    (httl : 0 < ttl) :
    requestStep st key ttl now net = (some m.data, st) := by
  unfold requestStep requestCachedRead
  rw [if_pos httl, hm]
  simp [hfresh]

theorem requestStep_persist_fresh (st : CacheState) (key : String)
    (ttl now : Nat) (e : PersistEntry) (net : NetOutcome)
    (hm : alistGet st.mem key = none) (hp : alistGet st.persist key = some e)
    (hfresh : now < e.expiresAt) (hne : e.responseJson.length ≠ 0)
    (httl : 0 < ttl) :
    requestStep st key ttl now net =
      (some e.responseJson,
        { st with mem := alistPut st.mem key ⟨now, e.responseJson⟩ }) := by
  unfold requestStep requestCachedRead
  rw [if_pos httl, hm, requestPersistRead_fresh st key now e hp hfresh hne]

/-- C1 as amended: (1) a persistent-tier read at or past `expires_at`
returns absent and deletes the row; (2) a persistent-tier read strictly
before `expires_at` returns exactly the stored value; (3) when the memory
entry (if any) has outlived `ttl` since its in-memory timestamp and the
persistent row is at or past `expires_at`, the whole cached-read path
reports a miss and the expired persistent row has been deleted; (4) a
memory entry strictly inside its `ttl` window is returned with no network
call and no state change; (5) with no memory entry, a persistent row
strictly before `expires_at` is returned with no network call, warming the
memory tier with timestamp `now` — the warm time, not the original fetch
time, which is why a warmed memory entry can outlive the persistent
`expires_at` (the counterexample). -/
theorem cache_expiry_semantics :
    (∀ (st : CacheState) (key : String) (now : Nat) (e : PersistEntry),
        alistGet st.persist key = some e → e.expiresAt ≤ now →
        getLastfmCache st key now =
          (none, { st with persist := alistErase st.persist key })) ∧
    (∀ (st : CacheState) (key : String) (now : Nat) (e : PersistEntry),
        alistGet st.persist key = some e → now < e.expiresAt →
        getLastfmCache st key now = (some e.responseJson, st)) ∧
    (∀ (st : CacheState) (key : String) (ttl now : Nat) (e : PersistEntry),
        (∀ m : MemEntry, alistGet st.mem key = some m → ttl ≤ now - m.cachedAt) →
        alistGet st.persist key = some e → e.expiresAt ≤ now →
        (requestCachedRead st key ttl now).1 = ReadSource.miss ∧
        alistGet (requestCachedRead st key ttl now).2.persist key = none) ∧
    (∀ (st : CacheState) (key : String) (ttl now : Nat) (m : MemEntry)
        (net : NetOutcome),
        alistGet st.mem key = some m → now - m.cachedAt < ttl → 0 < ttl →
        requestStep st key ttl now net = (some m.data, st)) ∧
    (∀ (st : CacheState) (key : String) (ttl now : Nat) (e : PersistEntry)
        (net : NetOutcome),
        alistGet st.mem key = none → alistGet st.persist key = some e →
        now < e.expiresAt → e.responseJson.length ≠ 0 → 0 < ttl →
        requestStep st key ttl now net =
          (some e.responseJson,
            { st with mem := alistPut st.mem key ⟨now, e.responseJson⟩ })) :=
  ⟨getLastfmCache_expired, getLastfmCache_fresh, requestCachedRead_all_expired,
    requestStep_memory_fresh, requestStep_persist_fresh⟩

/-- Witness for the amended C1 at concrete states: a persistent row with
`expires_at = 600` read at 600 is absent and deleted; read at 599 returns
the value; the full read path at 600 misses and deletes; a memory entry
cached at 0 read at 599 with TTL 600 is returned unchanged; an empty memory
tier with a fresh persistent row warms memory with the read time. -/
theorem cache_expiry_semantics_witness :
    getLastfmCache ⟨[], [("k", ⟨"v", 600⟩)]⟩ "k" 600 =
      (none, { mem := [], persist := [] }) ∧
    getLastfmCache ⟨[], [("k", ⟨"v", 600⟩)]⟩ "k" 599 =
      (some "v", ⟨[], [("k", ⟨"v", 600⟩)]⟩) ∧
    ((requestCachedRead ⟨[("k", ⟨0, "v"⟩)], [("k", ⟨"v", 600⟩)]⟩ "k" 600 600).1 =
        ReadSource.miss ∧
      alistGet (requestCachedRead ⟨[("k", ⟨0, "v"⟩)], [("k", ⟨"v", 600⟩)]⟩
          "k" 600 600).2.persist "k" = none) ∧
    requestStep ⟨[("k", ⟨0, "v"⟩)], [("k", ⟨"v", 600⟩)]⟩ "k" 600 599
        NetOutcome.transportError =
      (some "v", ⟨[("k", ⟨0, "v"⟩)], [("k", ⟨"v", 600⟩)]⟩) ∧
    requestStep ⟨[], [("k", ⟨"v", 600⟩)]⟩ "k" 600 599 NetOutcome.transportError =
      (some "v", ⟨[("k", ⟨599, "v"⟩)], [("k", ⟨"v", 600⟩)]⟩) := by
  refine ⟨?_, ?_, ?_, ?_, ?_⟩
  · exact cache_expiry_semantics.1 _ "k" 600 ⟨"v", 600⟩ (by decide) (by decide)
  · exact cache_expiry_semantics.2.1 _ "k" 599 ⟨"v", 600⟩ (by decide) (by decide)
  · exact cache_expiry_semantics.2.2.1 _ "k" 600 600 ⟨"v", 600⟩
      (by
        intro m hm
        have h2 : (some (⟨0, "v"⟩ : MemEntry)) = some m := hm
        rw [← Option.some.inj h2]
        decide)
      (by decide) (by decide)
  · exact cache_expiry_semantics.2.2.2.1 _ "k" 600 599 ⟨0, "v"⟩ _
      (by decide) (by decide) (by decide)
  · exact cache_expiry_semantics.2.2.2.2 _ "k" 600 599 ⟨"v", 600⟩ _
      (by decide) (by decide) (by decide) (by decide) (by decide)

/-- The C1 counterexample trace: cache a value at `t = 0` with TTL 600 (the
persistent row gets `expires_at = 600`), restart the process (memory tier
lost, persistent tier survives), then read at `t = 599`, which warms the
memory tier with timestamp 599. -/
def c1TraceState : CacheState :=
  (requestCachedRead
    (processRestart (requestStep ⟨[], []⟩ "k" 600 0 (NetOutcome.ok "v")).2)
    "k" 600 599).2

/-- C1 is false as stated: after the warming trace, the persistent row for
`"k"` still says `expires_at = 600`, yet the read at `t = 700 ≥ 600` is
served from the warmed memory tier and returns the value instead of
treating the entry as absent, and the read leaves the expired persistent
row in place instead of deleting it. -/
theorem read_after_expiry_served_from_warmed_memory :
    alistGet c1TraceState.persist "k" = some ⟨"v", 600⟩ ∧
    (600 : Nat) ≤ 700 ∧
    (requestCachedRead c1TraceState "k" 600 700).1 = ReadSource.memory "v" ∧
    alistGet (requestCachedRead c1TraceState "k" 600 700).2.persist "k" =
      some ⟨"v", 600⟩ := by
  decide

/-! ### Hourly cache cleanup loop
(`FMatrixBot.cache_cleanup_loop`, src/bot.py 200-216; `Database`,
src/database.py 13-382) -/

/-- The methods the `Database` class defines (src/database.py 13-382),
in source order.  Calling any other attribute on a `Database` instance
raises `AttributeError`. -/
def databaseMethods : List String :=
  ["__init__", "init", "_migrate_database", "close", "link_user",
   "get_lastfm_username", "set_lastfm_session_key", "get_lastfm_session_key",
   "get_all_users_in_room", "cache_stats", "get_cached_stats",
   "clear_old_cache", "get_lastfm_cache", "set_lastfm_cache",
   "store_auth_token", "get_auth_token", "delete_auth_token",
   "clear_old_auth_tokens", "link_discogs_user", "get_discogs_username",
   "unlink_discogs_user"]

/-- Which SQL tables a `Database` method issues `DELETE` statements
against (src/database.py): `clear_old_cache` deletes from `stats_cache`
(lines 235-244), `clear_old_auth_tokens` from `auth_tokens` (333-342),
`delete_auth_token` from `auth_tokens` (320-331), `unlink_discogs_user`
from `discogs_mappings` (371-382), `get_lastfm_cache` from `lastfm_cache`
on discovering expiry (246-277).  All other methods delete nothing. -/
def methodDeletesFrom (name : String) : List String :=
  if name = "clear_old_cache" then ["stats_cache"]
  else if name = "clear_old_auth_tokens" then ["auth_tokens"]
  else if name = "delete_auth_token" then ["auth_tokens"]
  else if name = "unlink_discogs_user" then ["discogs_mappings"]
  else if name = "get_lastfm_cache" then ["lastfm_cache"]
  else []

/-- One statement of the body of the `try:` block inside
`cache_cleanup_loop` (src/bot.py 204-214), after the `asyncio.sleep`. -/
inductive CleanupStmt
  | dbCall (name : String)
  | incrRuns
  | optimizeIfDue
  deriving Repr, DecidableEq

/-- The `try:` body of one `cache_cleanup_loop` iteration, in source order
(src/bot.py 208-213): three `self.db.<method>` calls, `runs += 1`, and a
conditional `self.db.optimize()` when `runs % 24 == 0`. -/
def cleanupBody : List CleanupStmt :=
  [CleanupStmt.dbCall "clear_old_cache",
   CleanupStmt.dbCall "clear_old_playcount_cache",
   CleanupStmt.dbCall "clear_old_auth_tokens",
   CleanupStmt.incrRuns,
   CleanupStmt.optimizeIfDue]

/-- Result of one loop iteration: database calls that actually ran, the
attribute name whose access raised `AttributeError` (caught by the
`except Exception` handler and logged), and the value of `runs` after the
iteration. -/
structure IterResult where
  executed : List String
  raised : Option String
  runs : Nat
  deriving Repr, DecidableEq

/-- Execute the statements of the `try:` block in order.  Accessing a
`Database` attribute that the class does not define raises
`AttributeError`, which aborts the rest of the block (the handler at
src/bot.py 215-216 catches and logs it), leaving `runs` at its value at
the time of the raise. -/
def execCleanup : List CleanupStmt → Nat → List String → IterResult
  | [], runs, acc => ⟨acc.reverse, none, runs⟩
  | CleanupStmt.dbCall n :: rest, runs, acc =>
    if n ∈ databaseMethods then execCleanup rest runs (n :: acc)
    else ⟨acc.reverse, some n, runs⟩
  | CleanupStmt.incrRuns :: rest, runs, acc => execCleanup rest (runs + 1) acc
  | CleanupStmt.optimizeIfDue :: rest, runs, acc =>
    if runs % 24 = 0 then
      if "optimize" ∈ databaseMethods then execCleanup rest runs ("optimize" :: acc)
      else ⟨acc.reverse, some "optimize", runs⟩
    else execCleanup rest runs acc

/-- One iteration of `cache_cleanup_loop` with loop counter `runs`. -/
def cleanupIteration (runs : Nat) : IterResult :=
  execCleanup cleanupBody runs []

/-- The tables from which one iteration actually deletes rows. -/
def cleanupDeletedTables (runs : Nat) : List String :=
  ((cleanupIteration runs).executed.map methodDeletesFrom).flatten

theorem cleanupIteration_eq (runs : Nat) :
    cleanupIteration runs =
      ⟨["clear_old_cache"], some "clear_old_playcount_cache", runs⟩ :=
  rfl

/-- C10: every iteration of `cache_cleanup_loop` calls the undefined
`Database` attributes `clear_old_playcount_cache` (and, were it reached,
`optimize`); the access raises `AttributeError` — caught and logged by the
iteration's handler — right after `clear_old_cache`, so neither
`clear_old_auth_tokens` nor `optimize` ever runs and `runs` never
advances: stale auth tokens are never purged by the sweep. -/
theorem cleanup_loop_raises_attribute_error (runs : Nat) :
    "clear_old_playcount_cache" ∉ databaseMethods ∧
    "optimize" ∉ databaseMethods ∧
    (cleanupIteration runs).raised = some "clear_old_playcount_cache" ∧
    (cleanupIteration runs).executed = ["clear_old_cache"] ∧
    "clear_old_auth_tokens" ∉ (cleanupIteration runs).executed ∧
    "optimize" ∉ (cleanupIteration runs).executed ∧
    (cleanupIteration runs).runs = runs := by
  rw [cleanupIteration_eq]
  exact ⟨by decide, by decide, rfl, rfl,
    (by decide : "clear_old_auth_tokens" ∉ ["clear_old_cache"]),
    (by decide : "optimize" ∉ ["clear_old_cache"]), rfl⟩

/-- C2 is false as stated: the iteration of the cleanup loop (here with
loop counter 0, and `cleanupIteration_eq` shows every counter behaves the
same) deletes rows only from `stats_cache`; no `DELETE` ever touches the
`lastfm_cache` table. -/
theorem cleanup_loop_never_deletes_lastfm_cache_rows :
    cleanupDeletedTables 0 = ["stats_cache"] ∧
    "lastfm_cache" ∉ cleanupDeletedTables 0 := by
  decide

/-- C2 as amended: each iteration's only time-bound housekeeping deletion
is `clear_old_cache` on the `stats_cache` table; it never deletes rows of
the persistent response cache (`lastfm_cache`) — those are deleted only by
the on-read expiry check of `Database.get_lastfm_cache`. -/
theorem cleanup_loop_deletes_stats_cache_only (runs : Nat) :
    cleanupDeletedTables runs = ["stats_cache"] ∧
    "lastfm_cache" ∉ cleanupDeletedTables runs ∧
    methodDeletesFrom "get_lastfm_cache" = ["lastfm_cache"] := by
  unfold cleanupDeletedTables
  rw [cleanupIteration_eq]
  exact ⟨rfl,
    (by decide :
      "lastfm_cache" ∉ (List.map methodDeletesFrom ["clear_old_cache"]).flatten),
    rfl⟩

/-! ### Reaction-driven pagination
(`PaginationManager`, src/commands.py 22-73;
`CommandHandler.handle_reaction`, src/commands.py 280-375;
`CommandHandler.send_message` / `send_paginated_message`,
src/commands.py 1643-1720) -/

/-- One value of `PaginationManager.paginations`: the dict built by
`register` (src/commands.py 29-39) and by the rebind inside
`handle_reaction` (351-358).  Pages are Python ints; the content callback
maps a page number to the rendered message text. -/
structure PagEntry where
  room_id : String
  user_id : String
  current_page : Int
  total_pages : Int
  callback : Int → String
  reaction_event_ids : List String

/-- Model of `PaginationManager.paginations`: a dict from message event id to state. -/
abbrev Registry := List (String × PagEntry)

/-- Embeds `PaginationManager.register` (src/commands.py 29-39): unconditionally
store a fresh entry under `event_id` with an empty
`reaction_event_ids` list.  No argument is validated. -/
def register (reg : Registry) (event_id room_id user_id : String)
    (current_page total_pages : Int) (callback : Int → String) : Registry :=
  alistPut reg event_id ⟨room_id, user_id, current_page, total_pages, callback, []⟩

/-- Embeds `PaginationManager.get` (src/commands.py 41-43). -/
def pmGet (reg : Registry) (event_id : String) : Option PagEntry :=
  alistGet reg event_id

/-- Embeds `PaginationManager.update_page` (src/commands.py 45-48): mutate
`current_page` in place when the key is present. -/
def updatePage (reg : Registry) (event_id : String) (new_page : Int) : Registry :=
  reg.map (fun p =>
    if p.1 == event_id then (p.1, { p.2 with current_page := new_page }) else p)

/-- An observable action `handle_reaction` performs on its collaborators,
in program order: invoking the content callback, redacting the old
message, sending the new one, and attaching a navigation reaction. -/
inductive Effect
  | producerCall (page : Int)
  | redact (eventId : String)
  | send (content : String)
  | annotate (eventId : String) (key : String)
  deriving Repr, DecidableEq

/-- The accepted-transition tail of `handle_reaction`
(src/commands.py 326-372), entered once a direction was accepted:
`update_page`, invoke the callback, redact the old message (best-effort),
send the new content.  `send_message` (1643-1672) returns the new event id
or `None`; only a truthy id triggers the rebind — pop the old key, store a
fresh entry with `current_page = new_page` and an empty
`reaction_event_ids` list — and the two arrow annotations, whose response
event ids the code discards. -/
def acceptedTransition (reg : Registry) (rid : String) (p : PagEntry)
    (newPage : Int) (sendResult : Option String) : Registry × List Effect :=
  let reg1 := updatePage reg rid newPage
  let content := p.callback newPage
  let effs := [Effect.producerCall newPage, Effect.redact rid, Effect.send content]
  match sendResult with
  | none => (reg1, effs)
  | some nid =>
    if nid.length = 0 then (reg1, effs)
    else
      let reg2 :=
        match pmGet reg1 rid with
        | some old =>
          alistPut (alistErase reg1 rid) nid
            { old with current_page := newPage, reaction_event_ids := [] }
        | none => reg1
      (reg2, effs ++ [Effect.annotate nid "⬅️", Effect.annotate nid "➡️"])

/-- Embeds `CommandHandler.handle_reaction` (src/commands.py 280-375).  Inputs:
the registry, the reaction's sender, the reacted-to event id and reaction
key from the `ReactionEvent` (either may be missing or empty), and the
transport's answer to the replacement `send_message` call.  Output: the
new registry and the observable effects, in order. -/
def handleReaction (reg : Registry) (sender : String)
    (reactsTo : Option String) (key : Option String)
    (sendResult : Option String) : Registry × List Effect :=
  match reactsTo, key with
  | some rid, some k =>
    if rid.length = 0 ∨ k.length = 0 then (reg, [])
    else
      match pmGet reg rid with
      | none => (reg, [])
      | some p =>
        if sender ≠ p.user_id then (reg, [])
        else if k = "⬅️" ∧ p.current_page > 1 then
          acceptedTransition reg rid p (p.current_page - 1) sendResult
        else if k = "➡️" ∧ p.current_page < p.total_pages then
          acceptedTransition reg rid p (p.current_page + 1) sendResult
        else (reg, [])
  | _, _ => (reg, [])

/-- Embeds `CommandHandler.send_paginated_message` (src/commands.py 1674-1720):
send the page-1 message; when the send produced a truthy event id and
`total_pages > 1`, register pagination for it and attach the two arrow
annotations (response ids discarded).  Returns the new registry, the
effects, and the returned event id. -/
def sendPaginatedMessage (reg : Registry) (message room_id user_id : String)
    (current_page total_pages : Int) (callback : Int → String)
    (sendResult : Option String) : Registry × List Effect × Option String :=
  let sendEff := [Effect.send message]
  match sendResult with
  | none => (reg, sendEff, none)
  | some eid =>
    if eid.length ≠ 0 ∧ total_pages > 1 then
      (register reg eid room_id user_id current_page total_pages callback,
        sendEff ++ [Effect.annotate eid "⬅️", Effect.annotate eid "➡️"],
        some eid)
    else (reg, sendEff, some eid)

theorem alistGet_put_self {α : Type} (l : List (String × α)) (k : String) (v : α) :
    alistGet (alistPut l k v) k = some v := by
  unfold alistPut alistErase alistGet
  induction l with
  | nil => simp
  | cons p rest ih => by_cases h : p.1 = k <;> simp [h, ih]

theorem pmGet_updatePage (reg : Registry) (rid : String) (np : Int) :
    pmGet (updatePage reg rid np) rid =
      (pmGet reg rid).map (fun p => { p with current_page := np }) := by
  induction reg with
  | nil => rfl
  | cons p rest ih =>
    by_cases h : p.1 = rid
    · simp only [pmGet, updatePage, alistGet, List.map_cons] at ih ⊢
      rw [if_pos (by simp [h])]
      rw [List.find?_cons_of_pos _ (by simp [h]),
        List.find?_cons_of_pos _ (by simp [h])]
      rfl
    · simp only [pmGet, updatePage, alistGet, List.map_cons] at ih ⊢
      rw [if_neg (by simp [h])]
      rw [List.find?_cons_of_neg _ (by simp [h]),
        List.find?_cons_of_neg _ (by simp [h])]
      exact ih

/-- A concrete content producer used by the concrete registries below. -/
def pageProducer : Int → String := fun _ => "page-content"

/-- C3 is false as stated: `register` called with `total_pages = 0 < 1`
does not fail — it creates a pagination state entry. -/
theorem register_creates_entry_for_zero_total_pages :
    pmGet (register [] "e1" "room" "alice" 1 0 pageProducer) "e1" =
      some ⟨"room", "alice", 1, 0, pageProducer, []⟩ := rfl

/-- C3 as amended: `register` itself validates nothing and creates an
entry for every `total_pages`, including values below 1; the guard lives
in its only caller, `send_paginated_message`, which registers pagination
only when the send produced a truthy event id and `total_pages > 1`, so
no entry with `total_pages < 1` is ever created through that path. -/
theorem register_unvalidated_guard_in_caller :
    (∀ (reg : Registry) (eid rid uid : String) (cp tp : Int)
        (cb : Int → String),
      pmGet (register reg eid rid uid cp tp cb) eid =
        some ⟨rid, uid, cp, tp, cb, []⟩) ∧
    (∀ (reg : Registry) (msg rid uid : String) (cp tp : Int)
        (cb : Int → String) (sr : Option String), tp < 1 →
      (sendPaginatedMessage reg msg rid uid cp tp cb sr).1 = reg) := by
  constructor
  · intro reg eid rid uid cp tp cb
    exact alistGet_put_self reg eid _
  · intro reg msg rid uid cp tp cb sr htp
    unfold sendPaginatedMessage
    cases sr with
    | none => rfl
    | some eid =>
      have h : ¬ (eid.length ≠ 0 ∧ tp > 1) := by
        rintro ⟨-, h1⟩
        omega
      simp only [if_neg h]

/-- Witness for the amended C3 at concrete inputs: registering with
`total_pages = 0` creates the entry, and `send_paginated_message` with
`total_pages = 0` leaves the registry unchanged. -/
theorem register_unvalidated_guard_in_caller_witness :
    pmGet (register [] "e9" "room" "bob" 1 0 pageProducer) "e9" =
      some ⟨"room", "bob", 1, 0, pageProducer, []⟩ ∧
    (0 : Int) < 1 ∧
    (sendPaginatedMessage [] "msg" "room" "bob" 1 0 pageProducer
      (some "e9")).1 = [] :=
  ⟨register_unvalidated_guard_in_caller.1 [] "e9" "room" "bob" 1 0 pageProducer,
    by decide,
    register_unvalidated_guard_in_caller.2 [] "msg" "room" "bob" 1 0 pageProducer
      (some "e9") (by decide)⟩

theorem handleReaction_some_some (reg : Registry) (sender rid k : String)
    (sr : Option String) :
    handleReaction reg sender (some rid) (some k) sr =
      if rid.length = 0 ∨ k.length = 0 then (reg, [])
      else
        match pmGet reg rid with
        | none => (reg, [])
        | some p =>
          if sender ≠ p.user_id then (reg, [])
          else if k = "⬅️" ∧ p.current_page > 1 then
            acceptedTransition reg rid p (p.current_page - 1) sr
          else if k = "➡️" ∧ p.current_page < p.total_pages then
            acceptedTransition reg rid p (p.current_page + 1) sr
          else (reg, []) := rfl

/-- C6: a reaction whose sender is not the registered owner leaves the
registry entirely unchanged and produces no effect — no page change, no
content production, no rebinding — for every reaction symbol, page
position, and transport behaviour. -/
theorem foreign_reaction_leaves_state_unchanged (reg : Registry)
    (sender rid k : String) (sr : Option String) (p : PagEntry)
    (hp : pmGet reg rid = some p) (hs : sender ≠ p.user_id) :
    handleReaction reg sender (some rid) (some k) sr = (reg, []) := by
  rw [handleReaction_some_some]
  by_cases h0 : rid.length = 0 ∨ k.length = 0
  · rw [if_pos h0]
  · rw [if_neg h0]
    simp only [hp]
    rw [if_pos hs]

/-- The concrete registry used by the pagination witnesses: message `e1`
owned by `alice`, page 1 of 3. -/
def regPage1of3 : Registry := [("e1", ⟨"room", "alice", 1, 3, pageProducer, []⟩)]

/-- A registry at the last page: message `e1` owned by `alice`, page 3 of 3. -/
def regPage3of3 : Registry := [("e1", ⟨"room", "alice", 3, 3, pageProducer, []⟩)]

/-- Witness for C6: `bob` reacting `➡️` on `alice`'s page-1-of-3 message
changes nothing. -/
theorem foreign_reaction_leaves_state_unchanged_witness :
    pmGet regPage1of3 "e1" = some ⟨"room", "alice", 1, 3, pageProducer, []⟩ ∧
    "bob" ≠ "alice" ∧
    handleReaction regPage1of3 "bob" (some "e1") (some "➡️") (some "e2") =
      (regPage1of3, []) :=
  ⟨rfl, by decide,
    foreign_reaction_leaves_state_unchanged regPage1of3 "bob" "e1" "➡️"
      (some "e2") _ rfl (by decide)⟩

/-- C7: for a registered owner's reaction, "previous" at `current_page = 1`
and "next" at `current_page = total_pages` are complete no-ops — the
registry is unchanged and no effect (in particular no content-producer
invocation) occurs.  No wraparound. -/
theorem boundary_navigation_is_noop (reg : Registry) (sender rid : String)
    (sr : Option String) (p : PagEntry) (hp : pmGet reg rid = some p)
    (hs : sender = p.user_id) :
    (p.current_page = 1 →
      handleReaction reg sender (some rid) (some "⬅️") sr = (reg, [])) ∧
    (p.current_page = p.total_pages →
      handleReaction reg sender (some rid) (some "➡️") sr = (reg, [])) := by
  constructor
  · intro h1
    rw [handleReaction_some_some]
    by_cases h0 : rid.length = 0 ∨ ("⬅️" : String).length = 0
    · rw [if_pos h0]
    · rw [if_neg h0]
      simp only [hp]
      rw [if_neg (by simp [hs])]
      rw [if_neg (by rintro ⟨-, hgt⟩; omega)]
      rw [if_neg (by rintro ⟨hk, -⟩; exact absurd hk (by decide))]
  · intro h1
    rw [handleReaction_some_some]
    by_cases h0 : rid.length = 0 ∨ ("➡️" : String).length = 0
    · rw [if_pos h0]
    · rw [if_neg h0]
      simp only [hp]
      rw [if_neg (by simp [hs])]
      rw [if_neg (by rintro ⟨hk, -⟩; exact absurd hk (by decide))]
      rw [if_neg (by rintro ⟨-, hlt⟩; omega)]

/-- Witness for C7: on `alice`'s page-1-of-3 message, her `⬅️` is a no-op;
on her page-3-of-3 message, her `➡️` is a no-op. -/
theorem boundary_navigation_is_noop_witness :
    handleReaction regPage1of3 "alice" (some "e1") (some "⬅️") (some "e2") =
      (regPage1of3, []) ∧
    handleReaction regPage3of3 "alice" (some "e1") (some "➡️") (some "e2") =
      (regPage3of3, []) :=
  ⟨(boundary_navigation_is_noop regPage1of3 "alice" "e1" (some "e2") _
      rfl rfl).1 rfl,
    (boundary_navigation_is_noop regPage3of3 "alice" "e1" (some "e2") _
      rfl rfl).2 rfl⟩

theorem handleReaction_accepts_next (reg : Registry) (sender rid : String)
    (sr : Option String) (p : PagEntry) (hp : pmGet reg rid = some p)
    (hs : sender = p.user_id) (hnav : p.current_page < p.total_pages)
    (hrid : rid.length ≠ 0) :
    handleReaction reg sender (some rid) (some "➡️") sr =
      acceptedTransition reg rid p (p.current_page + 1) sr := by
  rw [handleReaction_some_some]
  rw [if_neg (fun hor =>
    hor.elim hrid (fun h => absurd h (by decide : ("➡️" : String).length ≠ 0)))]
  simp only [hp]
  rw [if_neg (by simp [hs])]
  have h1 : ¬ (("➡️" : String) = "⬅️" ∧ p.current_page > 1) :=
    fun hc => absurd hc.1 (by decide)
  rw [if_neg h1]
  rw [if_pos (show True ∧ p.current_page < p.total_pages from ⟨trivial, hnav⟩)]

/-- C8 is false as stated: on an accepted transition of `alice`'s
page-1-of-3 message where the replacement send returns event id `e2`, the
two navigation-control annotations are attached to `e2`, but the rebound
pagination state's `reaction_event_ids` list is empty — the annotation
identifiers are never recorded. -/
theorem control_ids_not_recorded_counterexample :
    (pmGet (handleReaction regPage1of3 "alice" (some "e1") (some "➡️")
        (some "e2")).1 "e2").map (fun q => q.reaction_event_ids) = some [] ∧
    Effect.annotate "e2" "⬅️" ∈
      (handleReaction regPage1of3 "alice" (some "e1") (some "➡️") (some "e2")).2 ∧
    Effect.annotate "e2" "➡️" ∈
      (handleReaction regPage1of3 "alice" (some "e1") (some "➡️") (some "e2")).2 := by
  refine ⟨rfl, by decide, by decide⟩

/-- C8 as amended: after every accepted page transition whose replacement
send succeeds, the router re-attaches the two navigation-control
annotations to the newly sent message, but does not record their
identifiers: the rebound state's attached-control-identifier list is reset
to empty and nothing is ever appended to it (the annotation responses are
discarded; `PaginationManager.add_reaction_event_id` has no caller). -/
theorem transition_reattaches_controls_but_records_none
    (reg : Registry) (sender rid nid : String) (p : PagEntry)
    (hp : pmGet reg rid = some p) (hs : sender = p.user_id)
    (hnav : p.current_page < p.total_pages)
    (hrid : rid.length ≠ 0) (hnid : nid.length ≠ 0) :
    Effect.annotate nid "⬅️" ∈
        (handleReaction reg sender (some rid) (some "➡️") (some nid)).2 ∧
    Effect.annotate nid "➡️" ∈
        (handleReaction reg sender (some rid) (some "➡️") (some nid)).2 ∧
    pmGet (handleReaction reg sender (some rid) (some "➡️") (some nid)).1 nid =
      some { p with current_page := p.current_page + 1,
                    reaction_event_ids := [] } := by
  rw [handleReaction_accepts_next reg sender rid (some nid) p hp hs hnav hrid]
  simp only [acceptedTransition]
  rw [if_neg hnid]
  simp only [pmGet_updatePage, hp, Option.map_some']
  refine ⟨by simp, by simp, ?_⟩
  exact alistGet_put_self _ nid _

/-- Witness for the amended C8: `alice`'s accepted `➡️` on her page-1-of-3
message, replacement sent as `e2`: both arrows are re-attached to `e2` and
the rebound entry carries an empty control-identifier list. -/
theorem transition_reattaches_controls_but_records_none_witness :
    Effect.annotate "e2" "⬅️" ∈
        (handleReaction regPage1of3 "alice" (some "e1") (some "➡️") (some "e2")).2 ∧
    Effect.annotate "e2" "➡️" ∈
        (handleReaction regPage1of3 "alice" (some "e1") (some "➡️") (some "e2")).2 ∧
    pmGet (handleReaction regPage1of3 "alice" (some "e1") (some "➡️")
        (some "e2")).1 "e2" =
      some ⟨"room", "alice", 2, 3, pageProducer, []⟩ :=
  transition_reattaches_controls_but_records_none regPage1of3 "alice" "e1" "e2"
    ⟨"room", "alice", 1, 3, pageProducer, []⟩ rfl rfl (by decide) (by decide)
    (by decide)

/-- C9: the registry page is advanced before the old message is deleted
and the replacement sent, so when the replacement send fails
(`send_message` returns no event id) the pagination entry remains keyed by
the old message id but already carries the new page number, and no fresh
navigation controls are attached. -/
theorem failed_resend_leaves_advanced_page_under_old_id
    (reg : Registry) (sender rid : String) (p : PagEntry)
    (hp : pmGet reg rid = some p) (hs : sender = p.user_id)
    (hnav : p.current_page < p.total_pages) (hrid : rid.length ≠ 0) :
    handleReaction reg sender (some rid) (some "➡️") none =
      (updatePage reg rid (p.current_page + 1),
        [Effect.producerCall (p.current_page + 1), Effect.redact rid,
          Effect.send (p.callback (p.current_page + 1))]) ∧
    pmGet (handleReaction reg sender (some rid) (some "➡️") none).1 rid =
      some { p with current_page := p.current_page + 1 } ∧
    ∀ (e k : String),
      Effect.annotate e k ∉
        (handleReaction reg sender (some rid) (some "➡️") none).2 := by
  have hred : handleReaction reg sender (some rid) (some "➡️") none =
      (updatePage reg rid (p.current_page + 1),
        [Effect.producerCall (p.current_page + 1), Effect.redact rid,
          Effect.send (p.callback (p.current_page + 1))]) := by
    rw [handleReaction_accepts_next reg sender rid none p hp hs hnav hrid]
    simp only [acceptedTransition]
  refine ⟨hred, ?_, ?_⟩
  · rw [hred]
    simp only [pmGet_updatePage, hp, Option.map_some']
  · rw [hred]
    intro e k h
    simp at h

/-- Witness for C9: `alice`'s `➡️` on her page-1-of-3 message with a failed
replacement send: the entry stays under `e1` at page 2 and no annotation
effect occurs. -/
theorem failed_resend_leaves_advanced_page_under_old_id_witness :
    handleReaction regPage1of3 "alice" (some "e1") (some "➡️") none =
      (updatePage regPage1of3 "e1" 2,
        [Effect.producerCall 2, Effect.redact "e1",
          Effect.send "page-content"]) ∧
    pmGet (handleReaction regPage1of3 "alice" (some "e1") (some "➡️")
        none).1 "e1" =
      some ⟨"room", "alice", 2, 3, pageProducer, []⟩ ∧
    Effect.annotate "e2" "⬅️" ∉
      (handleReaction regPage1of3 "alice" (some "e1") (some "➡️") none).2 :=
  ⟨(failed_resend_leaves_advanced_page_under_old_id regPage1of3 "alice" "e1"
      ⟨"room", "alice", 1, 3, pageProducer, []⟩ rfl rfl (by decide)
      (by decide)).1,
    (failed_resend_leaves_advanced_page_under_old_id regPage1of3 "alice" "e1"
      ⟨"room", "alice", 1, 3, pageProducer, []⟩ rfl rfl (by decide)
      (by decide)).2.1,
    (failed_resend_leaves_advanced_page_under_old_id regPage1of3 "alice" "e1"
      ⟨"room", "alice", 1, 3, pageProducer, []⟩ rfl rfl (by decide)
      (by decide)).2.2 "e2" "⬅️"⟩

/-! ### Failure vs empty-result distinction
(`LastfmClient._request`, src/lastfm_client.py 97-126;
`LastfmClient.get_top_artists`, src/lastfm_client.py 139-155) -/

/-- A parsed JSON value, the shape of `await resp.json()`. -/
inductive JVal
  | jstr (s : String)
  | jnum (n : Int)
  | jarr (xs : List JVal)
  | jobj (fields : List (String × JVal))

/-- Python truthiness of a JSON value (`if data ...`): empty string, zero,
empty list and empty dict are falsy. -/
def JVal.truthy : JVal → Bool
  | .jstr s => s.length ≠ 0
  | .jnum n => n ≠ 0
  | .jarr xs => !xs.isEmpty
  | .jobj fs => !fs.isEmpty

/-- Python `'key' in data` for a dict-shaped value. -/
def JVal.hasKey : JVal → String → Bool
  | .jobj fs, k => fs.any (fun p => p.1 == k)
  | _, _ => false

/-- Python `data.get(key, default)` for a dict-shaped value. -/
def JVal.getD : JVal → String → JVal → JVal
  | .jobj fs, k, d =>
    match fs.find? (fun p => p.1 == k) with
    | some p => p.2
    | none => d
  | _, _, d => d

/-- What the `session.get` inside `_request` produced: an HTTP response
with a status and parsed body, or an exception on the transport. -/
inductive HttpOutcome
  | response (status : Nat) (body : JVal)
  | transportFailure

/-- The return value of `_request` (src/lastfm_client.py 97-126) as a
function of the HTTP outcome: status 200 returns the parsed body, any
other status returns `None` (line 123), and a raised exception returns
`None` (line 126). -/
def requestResult : HttpOutcome → Option JVal
  | HttpOutcome.response status body =>
    if status = 200 then some body else none
  | HttpOutcome.transportFailure => none

/-- Embeds `LastfmClient.get_top_artists` (src/lastfm_client.py 139-155) applied
to the value `_request` returned: when `data` is truthy and has key
`topartists`, take `data['topartists'].get('artist', [])`, wrap a bare
dict in a one-element list, and return it; in every other case — including
`data is None` after a failed fetch — return the empty list. -/
def getTopArtists (data : Option JVal) : JVal :=
  match data with
  | none => JVal.jarr []
  | some d =>
    if d.truthy && d.hasKey "topartists" then
      match (d.getD "topartists" (JVal.jarr [])).getD "artist" (JVal.jarr []) with
      | JVal.jobj fs => JVal.jarr [JVal.jobj fs]
      | artists => artists
    else JVal.jarr []

/-- A successful Last.fm answer carrying zero artists. -/
def zeroArtistsPayload : JVal :=
  JVal.jobj [("topartists", JVal.jobj [("artist", JVal.jarr [])])]

/-- C4 is false as stated: `get_top_artists` returns the same empty list
for a transport failure, for an HTTP 500, and for a successful fetch that
returned zero artists — its callers cannot tell "could not fetch" apart
from "fetched zero items". -/
theorem wrapper_conflates_failure_with_empty :
    getTopArtists (requestResult HttpOutcome.transportFailure) =
      getTopArtists (requestResult (HttpOutcome.response 200 zeroArtistsPayload)) ∧
    getTopArtists (requestResult (HttpOutcome.response 500 zeroArtistsPayload)) =
      getTopArtists (requestResult (HttpOutcome.response 200 zeroArtistsPayload)) ∧
    getTopArtists (requestResult (HttpOutcome.response 200 zeroArtistsPayload)) =
      JVal.jarr [] := by
  refine ⟨?_, ?_, ?_⟩ <;> rfl

/-- C4 as amended: at the `_request` level, a transport failure or
non-success HTTP status yields `None`, distinct from the `Some` payload of
every successful fetch (including one whose payload holds zero items); but
list-returning wrappers such as `get_top_artists` map both `None` and a
zero-item success to the same empty list, so their callers cannot
distinguish the two. -/
theorem request_failure_distinct_but_wrapper_collapses :
    (∀ (s : Nat) (b : JVal), s ≠ 200 →
      requestResult (HttpOutcome.response s b) = none) ∧
    requestResult HttpOutcome.transportFailure = none ∧
    (∀ b : JVal, requestResult (HttpOutcome.response 200 b) = some b) ∧
    (∀ b : JVal, requestResult (HttpOutcome.response 200 b) ≠
      requestResult HttpOutcome.transportFailure) ∧
    getTopArtists none = getTopArtists (some zeroArtistsPayload) := by
  refine ⟨?_, rfl, ?_, ?_, rfl⟩
  · intro s b hs
    show (if s = 200 then some b else none) = none
    rw [if_neg hs]
  · intro b; rfl
  · intro b h
    exact Option.noConfusion h

/-- Witness for the amended C4: a 500 response yields `None`, unlike the
200 zero-artist response, yet `get_top_artists` erases the difference. -/
theorem request_failure_distinct_witness :
    requestResult (HttpOutcome.response 500 zeroArtistsPayload) = none ∧
    requestResult (HttpOutcome.response 200 zeroArtistsPayload) =
      some zeroArtistsPayload ∧
    requestResult (HttpOutcome.response 200 zeroArtistsPayload) ≠
      requestResult HttpOutcome.transportFailure :=
  ⟨request_failure_distinct_but_wrapper_collapses.1 500 zeroArtistsPayload
      (by decide),
    request_failure_distinct_but_wrapper_collapses.2.2.1 zeroArtistsPayload,
    request_failure_distinct_but_wrapper_collapses.2.2.2.1 zeroArtistsPayload⟩

end FMatrix
